import Mathlib

/-!
Shallow embedding of the Modbus RTU slave responder from Modbus-tools/mbs.c:
the request decoder, the register-map handler functions read_reg / write_reg,
and the per-request dispatch/respond step of the main loop.  The serial
transport, CRC framing and the libmodbus reply serialisation are external
collaborators; the reply builder (modbus_reply / modbus_reply_exception) is
modelled from the spec where noted.
-/

namespace Mbs

/-- MAX_REG from mbs.c: size of the device register map. -/
def MAX_REG : Nat := 32

/-- Decoded Modbus request, mirroring modbus_request_t in mbs.c.
slave_addr and fc are single bytes; reg_addr and reg_val are each formed
from two big-endian bytes (reg_val holds the register count for reads). -/
structure Request where
  slave_addr : Nat
  fc : Nat
  reg_addr : Nat
  reg_val : Nat
deriving DecidableEq

/-- Request decoder of mbs.c main: the struct overlay at
query[header_length-1], with reg_addr and reg_val assembled as hi<<8|lo. -/
def decode_request (query : List Nat) (header_length : Nat) : Request :=
  let b : Nat → Nat := fun i => query.getD (header_length - 1 + i) 0
  { slave_addr := b 0
    fc := b 1
    reg_addr := (b 2) <<< 8 ||| (b 3)
    reg_val := (b 4) <<< 8 ||| (b 5) }

/-- read_reg from mbs.c: reads reg_map[reg_addr] and returns return code 0.
Result is (return code, value read). -/
def read_reg (reg_map : List Nat) (reg_addr : Nat) : Nat × Nat :=
  (0, reg_map.getD reg_addr 0)

/-- write_reg from mbs.c: stores reg_val at reg_map[reg_addr] and returns
return code 0.  Result is (return code, updated register map). -/
def write_reg (reg_map : List Nat) (reg_addr : Nat) (reg_val : Nat) : Nat × List Nat :=
  (0, reg_map.set reg_addr reg_val)

/-- Wire reply observed by the client. -/
inductive Reply where
  | readReply (slave_addr fc : Nat) (payload : List Nat)
  | writeEcho (slave_addr fc reg_addr reg_val : Nat)
  | exception (slave_addr fc_byte code : Nat)
deriving DecidableEq

/-- Modelled from the spec: the Response Builder used on the normal path
(libmodbus modbus_reply, not part of this repository).  For a read request
it replies with the requested count of registers taken from the response
mapping starting at the requested address, in order; for a write-single
request it echoes slave address, function code, register address and value. -/
def modbus_reply (req : Request) (mapping : List Nat) : Reply :=
  if req.fc = 3 ∨ req.fc = 4 then
    Reply.readReply req.slave_addr req.fc ((mapping.drop req.reg_addr).take req.reg_val)
  else
    Reply.writeEcho req.slave_addr req.fc req.reg_addr req.reg_val

/-- Outcome of one main-loop iteration on a received frame. -/
inductive Action where
  | ignore
  | fatalExit (code : Int)
  | sendReply (r : Reply)
deriving DecidableEq

/-- Exception code carried by the action, if it is an exception reply. -/
def Action.excCode : Action → Option Nat
  | Action.sendReply (Reply.exception _ _ c) => some c
  | _ => none

/-- Register payload carried by the action, if it is a normal read reply. -/
def Action.payload : Action → Option (List Nat)
  | Action.sendReply (Reply.readReply _ _ p) => some p
  | _ => none

/-- State after one iteration: the register map and the outward action. -/
structure StepResult where
  reg_map : List Nat
  action : Action
deriving DecidableEq

/-- The switch statement of mbs.c main: given the register map and the
decoded request, produce (exception_code, response mapping tab_registers,
updated register map).  The response mapping models mb_mapping created by
modbus_mapping_new(0,0,MAX_REG,0), i.e. MAX_REG zero registers. -/
def dispatch (reg_map : List Nat) (req : Request) : Nat × List Nat × List Nat :=
  let mapping : List Nat := List.replicate MAX_REG 0
  if req.fc = 3 ∨ req.fc = 4 then
    if req.reg_addr < MAX_REG then
      let r := read_reg reg_map req.reg_addr
      if r.1 ≠ 0 then (4, mapping, reg_map)
      else (0, mapping.set req.reg_addr r.2, reg_map)
    else (2, mapping, reg_map)
  else if req.fc = 6 then
    if req.reg_addr < MAX_REG then
      let w := write_reg reg_map req.reg_addr req.reg_val
      if w.1 ≠ 0 then (4, mapping, reg_map)
      else (0, mapping, w.2)
    else (2, mapping, reg_map)
  else (1, mapping, reg_map)

/-- One iteration of the mbs.c main loop after a frame has been received
and decoded: address filtering, response-structure allocation (alloc_ok
models whether modbus_mapping_new succeeds; on failure mbs.c returns -1),
the dispatch switch, and the reply (modbus_reply on exception_code = 0,
modbus_reply_exception with fc|0x80 otherwise). -/
def step (own_addr : Nat) (reg_map : List Nat) (req : Request) (alloc_ok : Bool) : StepResult :=
  if req.slave_addr ≠ own_addr then
    ⟨reg_map, Action.ignore⟩
  else if alloc_ok = false then
    ⟨reg_map, Action.fatalExit (-1)⟩
  else
    let d := dispatch reg_map req
    if d.1 = 0 then
      ⟨d.2.2, Action.sendReply (modbus_reply req d.2.1)⟩
    else
      ⟨d.2.2, Action.sendReply (Reply.exception req.slave_addr (req.fc ||| 0x80) d.1)⟩

/-! Helper lemmas about the freshly allocated response mapping. -/

/-- Taking c elements of a replicate of length n with c at most n. -/
theorem take_replicate_of_le : ∀ (c n : Nat), c ≤ n →
    (List.replicate n (0 : Nat)).take c = List.replicate c 0
  | 0, _, _ => by simp
  | c + 1, 0, h => by omega
  | c + 1, n + 1, h => by
    simp only [List.replicate_succ, List.take_succ_cons]
    rw [take_replicate_of_le c n (by omega)]

/-- The slice of the response mapping returned for a read of count c starting
at address a: the register copied in at a followed by the zero defaults. -/
theorem take_drop_set_replicate (v : Nat) :
    ∀ (a n c : Nat), a < n → 1 ≤ c → a + c ≤ n →
    ((((List.replicate n (0 : Nat)).set a v).drop a).take c) = v :: List.replicate (c - 1) 0 := by
  intro a
  induction a with
  | zero =>
    intro n c ha hc hac
    match n, c with
    | n + 1, c + 1 =>
      simp only [List.replicate_succ, List.set_cons_zero, List.drop_zero,
        List.take_succ_cons, Nat.add_sub_cancel]
      rw [take_replicate_of_le c n (by omega)]
  | succ a ih =>
    intro n c ha hc hac
    match n with
    | n + 1 =>
      simp only [List.replicate_succ, List.set_cons_succ, List.drop_succ_cons]
      exact ih n c (by omega) hc (by omega)

/-- Reading back the element just written with List.set. -/
theorem getD_set_self (l : List Nat) (i v : Nat) (h : i < l.length) :
    (l.set i v).getD i 0 = v := by
  rw [List.getD_eq_getElem?_getD, List.getElem?_set_self h]
  rfl

/-! Claim theorems. -/

/-- C1: for every write-single-register request (function code 0x06) addressed
to the responder with register address below MAX_REG and value v, processing
stores v in the Register Map at that address and the normal reply echoes the
function code, register address and value v. -/
theorem write_single_updates_map_and_echoes
    (own_addr : Nat) (reg_map : List Nat) (req : Request)
    (hfc : req.fc = 6) (haddr : req.slave_addr = own_addr)
    (hreg : req.reg_addr < MAX_REG) (hlen : reg_map.length = MAX_REG) :
    (step own_addr reg_map req true).reg_map = reg_map.set req.reg_addr req.reg_val
    ∧ (step own_addr reg_map req true).reg_map.getD req.reg_addr 0 = req.reg_val
    ∧ (step own_addr reg_map req true).action
        = Action.sendReply (Reply.writeEcho req.slave_addr req.fc req.reg_addr req.reg_val) := by
  have h : step own_addr reg_map req true
      = ⟨reg_map.set req.reg_addr req.reg_val,
         Action.sendReply (Reply.writeEcho req.slave_addr req.fc req.reg_addr req.reg_val)⟩ := by
    simp [step, dispatch, write_reg, modbus_reply, haddr, hfc, hreg]
  refine ⟨by rw [h], ?_, by rw [h]⟩
  rw [h]
  exact getD_set_self reg_map req.reg_addr req.reg_val (by omega)

/-- Witness for C1: scenario A of the spec, own address 5, zero map,
request (addr=5, fc=6, reg=10, val=1234). -/
theorem write_single_updates_map_and_echoes_witness :
    (step 5 (List.replicate MAX_REG 0) ⟨5, 6, 10, 1234⟩ true).reg_map
      = (List.replicate MAX_REG 0).set 10 1234
    ∧ (step 5 (List.replicate MAX_REG 0) ⟨5, 6, 10, 1234⟩ true).reg_map.getD 10 0 = 1234
    ∧ (step 5 (List.replicate MAX_REG 0) ⟨5, 6, 10, 1234⟩ true).action
        = Action.sendReply (Reply.writeEcho 5 6 10 1234) :=
  write_single_updates_map_and_echoes 5 (List.replicate MAX_REG 0) ⟨5, 6, 10, 1234⟩
    rfl rfl (by decide) (by decide)

/-- C2: for every addressed read (0x03/0x04) or write (0x06) request whose
register address is at least MAX_REG, the Register Map is unmodified, the
reply is an exception with code 2 (Illegal Data Address), and the action does
not depend on the Register Map contents at all (no map element is accessed:
the bounds check precedes any map access). -/
theorem out_of_range_illegal_data_address
    (own_addr : Nat) (reg_map reg_map2 : List Nat) (req : Request)
    (haddr : req.slave_addr = own_addr)
    (hfc : req.fc = 3 ∨ req.fc = 4 ∨ req.fc = 6)
    (hreg : MAX_REG ≤ req.reg_addr) :
    (step own_addr reg_map req true).reg_map = reg_map
    ∧ (step own_addr reg_map req true).action
        = Action.sendReply (Reply.exception req.slave_addr (req.fc ||| 0x80) 2)
    ∧ (step own_addr reg_map req true).action = (step own_addr reg_map2 req true).action := by
  have hnot : ¬ req.reg_addr < MAX_REG := by omega
  rcases hfc with h | h | h <;> simp [step, dispatch, haddr, h, hnot]

/-- Witness for C2: scenario C of the spec, request (addr=5, fc=3, reg=40)
with MAX_REG = 32, against two different maps. -/
theorem out_of_range_illegal_data_address_witness :
    (step 5 (List.replicate MAX_REG 0) ⟨5, 3, 40, 1⟩ true).reg_map
      = List.replicate MAX_REG 0
    ∧ (step 5 (List.replicate MAX_REG 0) ⟨5, 3, 40, 1⟩ true).action
        = Action.sendReply (Reply.exception 5 (3 ||| 0x80) 2)
    ∧ (step 5 (List.replicate MAX_REG 0) ⟨5, 3, 40, 1⟩ true).action
        = (step 5 ((List.replicate MAX_REG 0).set 2 9) ⟨5, 3, 40, 1⟩ true).action :=
  out_of_range_illegal_data_address 5 (List.replicate MAX_REG 0)
    ((List.replicate MAX_REG 0).set 2 9) ⟨5, 3, 40, 1⟩ rfl (Or.inl rfl) (by decide)

/-- C3: for every addressed read request (0x03 or 0x04) with register address
below MAX_REG, the Register Map is unchanged, repeating the identical request
from the resulting state yields the identical result, and for count 1 the
reply payload is exactly the Register Map value at the requested address. -/
theorem read_pure_idempotent
    (own_addr : Nat) (reg_map : List Nat) (req : Request)
    (hfc : req.fc = 3 ∨ req.fc = 4) (haddr : req.slave_addr = own_addr)
    (hreg : req.reg_addr < MAX_REG) :
    (step own_addr reg_map req true).reg_map = reg_map
    ∧ step own_addr (step own_addr reg_map req true).reg_map req true
        = step own_addr reg_map req true
    ∧ (req.reg_val = 1 →
        (step own_addr reg_map req true).action
          = Action.sendReply (Reply.readReply req.slave_addr req.fc
              [reg_map.getD req.reg_addr 0])) := by
  have hmap : (step own_addr reg_map req true).reg_map = reg_map := by
    rcases hfc with h | h <;> simp [step, dispatch, read_reg, modbus_reply, haddr, h, hreg]
  have haction : (step own_addr reg_map req true).action
      = Action.sendReply (Reply.readReply req.slave_addr req.fc
          ((((List.replicate MAX_REG 0).set req.reg_addr
              (reg_map.getD req.reg_addr 0)).drop req.reg_addr).take req.reg_val)) := by
    rcases hfc with h | h <;> simp [step, dispatch, read_reg, modbus_reply, haddr, h, hreg]
  refine ⟨hmap, by rw [hmap], ?_⟩
  intro hc1
  rw [haction, hc1,
    take_drop_set_replicate (reg_map.getD req.reg_addr 0) req.reg_addr MAX_REG 1
      hreg (by omega) (by omega)]
  rfl

/-- Witness for C3: scenario B of the spec, reading register 10 (count 1)
after it was set to 1234. -/
theorem read_pure_idempotent_witness :
    (step 5 ((List.replicate MAX_REG 0).set 10 1234) ⟨5, 3, 10, 1⟩ true).reg_map
      = (List.replicate MAX_REG 0).set 10 1234
    ∧ step 5 (step 5 ((List.replicate MAX_REG 0).set 10 1234) ⟨5, 3, 10, 1⟩ true).reg_map
        ⟨5, 3, 10, 1⟩ true
      = step 5 ((List.replicate MAX_REG 0).set 10 1234) ⟨5, 3, 10, 1⟩ true
    ∧ ((5 : Nat) = 5 →
        (step 5 ((List.replicate MAX_REG 0).set 10 1234) ⟨5, 3, 10, 1⟩ true).action
          = Action.sendReply (Reply.readReply 5 3
              [((List.replicate MAX_REG 0).set 10 1234).getD 10 0])) := by
  have h := read_pure_idempotent 5 ((List.replicate MAX_REG 0).set 10 1234)
    ⟨5, 3, 10, 1⟩ (Or.inl rfl) rfl (by decide)
  exact ⟨h.1, h.2.1, fun _ => h.2.2 rfl⟩

/-- C4: a frame whose slave address differs from the responder's own address
is silently discarded before allocation and function dispatch: the map is
unchanged, no reply of any kind is sent, and in particular no Illegal
Function exception is produced, whatever the function code is. -/
theorem unaddressed_frame_ignored
    (own_addr : Nat) (reg_map : List Nat) (req : Request) (alloc_ok : Bool)
    (haddr : req.slave_addr ≠ own_addr) :
    step own_addr reg_map req alloc_ok = ⟨reg_map, Action.ignore⟩
    ∧ ∀ r : Reply, (step own_addr reg_map req alloc_ok).action ≠ Action.sendReply r := by
  simp [step, haddr]

/-- Witness for C4: scenario D of the spec, request (addr=9, fc=6) at a
responder with own address 5, with an unsupported function code variant. -/
theorem unaddressed_frame_ignored_witness :
    (step 5 (List.replicate MAX_REG 0) ⟨9, 7, 0, 0⟩ true
      = ⟨List.replicate MAX_REG 0, Action.ignore⟩)
    ∧ ∀ r : Reply,
        (step 5 (List.replicate MAX_REG 0) ⟨9, 7, 0, 0⟩ true).action
          ≠ Action.sendReply r :=
  unaddressed_frame_ignored 5 (List.replicate MAX_REG 0) ⟨9, 7, 0, 0⟩ true (by decide)

/-- C5: every addressed request with a function code other than 3, 4 and 6
leaves the Register Map unchanged and is answered by an exception reply whose
function-code byte is the original function code with the high bit set and
whose exception code is 1 (Illegal Function). -/
theorem unsupported_fc_illegal_function
    (own_addr : Nat) (reg_map : List Nat) (req : Request)
    (haddr : req.slave_addr = own_addr)
    (h3 : req.fc ≠ 3) (h4 : req.fc ≠ 4) (h6 : req.fc ≠ 6) :
    step own_addr reg_map req true
      = ⟨reg_map, Action.sendReply (Reply.exception req.slave_addr (req.fc ||| 0x80) 1)⟩ := by
  simp [step, dispatch, haddr, h3, h4, h6]

/-- Witness for C5: scenario E of the spec, function code 7 gives an
exception with function-code byte 0x87 and code 1. -/
theorem unsupported_fc_illegal_function_witness :
    step 5 (List.replicate MAX_REG 0) ⟨5, 7, 0, 0⟩ true
      = ⟨List.replicate MAX_REG 0,
         Action.sendReply (Reply.exception 5 (7 ||| 0x80) 1)⟩ :=
  unsupported_fc_illegal_function 5 (List.replicate MAX_REG 0) ⟨5, 7, 0, 0⟩
    rfl (by decide) (by decide) (by decide)

/-- C6 counterexample: with the Register Map holding 7 at address 1, an
addressed read of two registers starting at address 0 replies with payload
0, 0: the second entry is the response mapping's zero default, not the
Register Map value 7 at address 1, so not every payload entry equals the
Register Map value at the corresponding address. -/
theorem multi_read_counterexample :
    (step 5 ((List.replicate MAX_REG 0).set 1 7) ⟨5, 3, 0, 2⟩ true).action
      = Action.sendReply (Reply.readReply 5 3 [0, 0])
    ∧ ((List.replicate MAX_REG 0).set 1 7).getD 1 0 = 7
    ∧ [0, 0] ≠ [((List.replicate MAX_REG 0).set 1 7).getD 0 0,
                ((List.replicate MAX_REG 0).set 1 7).getD 1 0] := by
  refine ⟨by decide, by decide, by decide⟩

/-- C6 amended: for every addressed read with start address a below MAX_REG
and count c with 1 at most c and a + c at most MAX_REG, the normal reply
carries c payload entries in request order, the first equal to the Register
Map value at a and all later entries equal to the zero default of the fresh
response mapping; the Register Map is unchanged. -/
theorem read_reply_rest_zero
    (own_addr : Nat) (reg_map : List Nat) (req : Request)
    (hfc : req.fc = 3 ∨ req.fc = 4) (haddr : req.slave_addr = own_addr)
    (hreg : req.reg_addr < MAX_REG) (hc : 1 ≤ req.reg_val)
    (hcount : req.reg_addr + req.reg_val ≤ MAX_REG) :
    step own_addr reg_map req true
      = ⟨reg_map, Action.sendReply (Reply.readReply req.slave_addr req.fc
          (reg_map.getD req.reg_addr 0 :: List.replicate (req.reg_val - 1) 0))⟩ := by
  have hpay := take_drop_set_replicate (reg_map.getD req.reg_addr 0)
      req.reg_addr MAX_REG req.reg_val hreg hc hcount
  simp only [List.getD_eq_getElem?_getD] at hpay
  rcases hfc with h | h <;>
    simp [step, dispatch, read_reg, modbus_reply, haddr, h, hreg, hpay]

/-- Witness for C6 amended: the counterexample input, read of two registers
at address 0 with the map holding 7 at address 1. -/
theorem read_reply_rest_zero_witness :
    step 5 ((List.replicate MAX_REG 0).set 1 7) ⟨5, 3, 0, 2⟩ true
      = ⟨(List.replicate MAX_REG 0).set 1 7,
         Action.sendReply (Reply.readReply 5 3
           (((List.replicate MAX_REG 0).set 1 7).getD 0 0 :: List.replicate (2 - 1) 0))⟩ :=
  read_reply_rest_zero 5 ((List.replicate MAX_REG 0).set 1 7) ⟨5, 3, 0, 2⟩
    (Or.inl rfl) rfl (by decide) (by decide) (by decide)

/-- C7 counterexample: when allocation of the response structure fails on an
addressed request after startup, the responder does not continue serving: it
stops with exit status -1, a non-zero exit. -/
theorem alloc_failure_counterexample :
    (step 5 (List.replicate MAX_REG 0) ⟨5, 6, 10, 1234⟩ false).action
      = Action.fatalExit (-1)
    ∧ (step 5 (List.replicate MAX_REG 0) ⟨5, 6, 10, 1234⟩ false).action ≠ Action.ignore
    ∧ (-1 : Int) ≠ 0 := by
  refine ⟨by decide, by decide, by decide⟩

/-- C7 amended: when allocation of the per-request response structure fails
on an addressed request, the responder terminates with the non-zero exit
status -1 (the same behaviour as startup failures), leaving the Register Map
unchanged, instead of continuing to serve subsequent requests. -/
theorem alloc_failure_fatal
    (own_addr : Nat) (reg_map : List Nat) (req : Request)
    (haddr : req.slave_addr = own_addr) :
    step own_addr reg_map req false = ⟨reg_map, Action.fatalExit (-1)⟩ := by
  simp [step, haddr]

/-- Witness for C7 amended: allocation failure on the scenario A request. -/
theorem alloc_failure_fatal_witness :
    step 5 (List.replicate MAX_REG 0) ⟨5, 6, 10, 1234⟩ false
      = ⟨List.replicate MAX_REG 0, Action.fatalExit (-1)⟩ :=
  alloc_failure_fatal 5 (List.replicate MAX_REG 0) ⟨5, 6, 10, 1234⟩ rfl

/-- C8: function codes 3 and 4 are handled identically: for every map and
request the whole dispatch outcome (exception code, response mapping,
updated map) is equal, and at step level the resulting map, exception code
and payload coincide; only the echoed function-code byte differs. -/
theorem fc3_fc4_equivalent
    (own_addr : Nat) (reg_map : List Nat) (req : Request) (alloc_ok : Bool) :
    dispatch reg_map { req with fc := 3 } = dispatch reg_map { req with fc := 4 }
    ∧ (step own_addr reg_map { req with fc := 3 } alloc_ok).reg_map
        = (step own_addr reg_map { req with fc := 4 } alloc_ok).reg_map
    ∧ (step own_addr reg_map { req with fc := 3 } alloc_ok).action.excCode
        = (step own_addr reg_map { req with fc := 4 } alloc_ok).action.excCode
    ∧ (step own_addr reg_map { req with fc := 3 } alloc_ok).action.payload
        = (step own_addr reg_map { req with fc := 4 } alloc_ok).action.payload := by
  by_cases hs : req.slave_addr = own_addr
  · by_cases hr : req.reg_addr < MAX_REG <;>
      cases alloc_ok <;>
      simp [step, dispatch, read_reg, modbus_reply, Action.excCode, Action.payload, hs, hr]
  · simp [step, dispatch, read_reg, modbus_reply, Action.excCode, Action.payload, hs]

/-- Helper: the exception code computed by the dispatch switch is always
0 (success), 1 (illegal function) or 2 (illegal data address). -/
theorem dispatch_code_cases (reg_map : List Nat) (req : Request) :
    (dispatch reg_map req).1 = 0 ∨ (dispatch reg_map req).1 = 1
      ∨ (dispatch reg_map req).1 = 2 := by
  simp only [dispatch, read_reg, write_reg]
  split_ifs <;> simp_all

/-- C9: the Slave/Server Failure path is unreachable: the register handlers
always return the success code 0, the dispatch switch never produces
exception code 4, and no step ever sends a reply with exception code 4. -/
theorem slave_failure_unreachable
    (own_addr : Nat) (reg_map : List Nat) (reg_addr reg_val : Nat)
    (req : Request) (alloc_ok : Bool) :
    (read_reg reg_map reg_addr).1 = 0
    ∧ (write_reg reg_map reg_addr reg_val).1 = 0
    ∧ (dispatch reg_map req).1 ≠ 4
    ∧ (step own_addr reg_map req alloc_ok).action.excCode ≠ some 4 := by
  refine ⟨rfl, rfl, ?_, ?_⟩
  · rcases dispatch_code_cases reg_map req with h | h | h <;> simp [h]
  · by_cases hs : req.slave_addr = own_addr
    · cases alloc_ok
      · simp [step, hs, Action.excCode]
      · rcases dispatch_code_cases reg_map req with h | h | h
        · simp [step, hs, h, Action.excCode, modbus_reply]
          split_ifs <;> simp [Action.excCode]
        · simp [step, hs, h, Action.excCode]
        · simp [step, hs, h, Action.excCode]
    · simp [step, hs, Action.excCode]

/-- C10: for addressed reads the dispatcher validates only the start address
against MAX_REG: the decoded count field never changes the exception outcome
of the dispatch switch, and any start address below MAX_REG is dispatched to
the read path (exception code 0) for every count value, even counts whose
range would run past MAX_REG. -/
theorem read_validation_ignores_count
    (reg_map : List Nat) (req : Request) (c1 c2 : Nat)
    (hfc : req.fc = 3 ∨ req.fc = 4) :
    (dispatch reg_map { req with reg_val := c1 }).1
      = (dispatch reg_map { req with reg_val := c2 }).1
    ∧ (req.reg_addr < MAX_REG →
        (dispatch reg_map { req with reg_val := c1 }).1 = 0) := by
  constructor
  · rcases hfc with h | h <;> by_cases hr : req.reg_addr < MAX_REG <;>
      simp [dispatch, read_reg, h, hr]
  · intro hr
    rcases hfc with h | h <;> simp [dispatch, read_reg, h, hr]

/-- Witness for C10: a read at start address 31 with counts 1 and 40; count
40 would run past MAX_REG = 32 yet the dispatch outcome is the same. -/
theorem read_validation_ignores_count_witness :
    ((dispatch (List.replicate MAX_REG 0) { slave_addr := 5, fc := 3, reg_addr := 31, reg_val := 40 }).1
      = (dispatch (List.replicate MAX_REG 0) { slave_addr := 5, fc := 3, reg_addr := 31, reg_val := 1 }).1)
    ∧ ((31 : Nat) < MAX_REG →
        (dispatch (List.replicate MAX_REG 0) { slave_addr := 5, fc := 3, reg_addr := 31, reg_val := 40 }).1 = 0) :=
  read_validation_ignores_count (List.replicate MAX_REG 0)
    { slave_addr := 5, fc := 3, reg_addr := 31, reg_val := 7 } 40 1 (Or.inl rfl)

end Mbs
